import Mathlib

/-!
Verification development for the settlement-breakdown generator
(`breakdowns.py`): a shallow embedding of the closeout-statement
extraction pipeline (`CloseOutStatement`) and the breakdown-sheet
generator (`BreakdownWriter`), with theorems about the behaviour of the
embedded operations.

Modelling conventions:
* A worksheet cell entry is either a text or a number; an absent cell
  (`NaN` in the pandas frame) is `Option.none`.  Numeric cell payloads
  are modelled as integers (the inputs exercised by the pipeline carry
  integer dollar amounts); Python floats used as constant factors
  (`0.4`, `1/3`, `0.25`, ...) are modelled as exact rationals.
* A pandas DataFrame is an ordered list of rows; positional `iloc`
  slicing becomes `List.take`/`List.drop`, `dropna` becomes `filter`.
* Spreadsheet formulas, which the Python code builds as interpolated
  strings, are modelled as a small expression tree (`FExpr`) so that the
  theorems can speak about the cell references a formula contains.
* The `regex` library call `regex.findall(f"({pat}){e<=k}", item)` is
  modelled by its documented fuzzy-matching semantics: the pattern
  matches `item` iff some contiguous substring of `item` is within
  Levenshtein distance `k` (insertions, deletions and substitutions each
  of cost 1) of the pattern.
-/

set_option maxRecDepth 100000
set_option maxHeartbeats 1000000

deriving instance DecidableEq for Except

namespace Breakdowns

/-- A non-empty worksheet cell entry: a string or a number. -/
inductive Entry where
  | str (s : String)
  | num (n : Int)
deriving DecidableEq

/-- One row of the normalized closeout frame after preprocessing:
the merged, canonicalized item label and the (possibly absent) amount.
The label is always a present string: a row whose item cell were absent
while its amount cell is present would crash the Python preprocessing
(`.lower()` on a float `NaN`), and rows with both cells absent are
dropped. -/
structure Record where
  item : String
  amount : Option Entry
deriving DecidableEq

/-! ## Fuzzy matching (`CloseOutStatement._is_fuzzy_match`) -/

/-- All contiguous substrings of a list: every initial segment of every
tail.  These are the candidate windows of the fuzzy regex search. -/
def windows (l : List Char) : List (List Char) :=
  l.tails.flatMap List.inits

/-- `CloseOutStatement._is_fuzzy_match item pat errors`, the
`regex.findall(f"({pat}){e<=errors}", item)`-nonempty test, modelled by
the fuzzy regex's documented semantics: some contiguous substring of
`item` lies within Levenshtein distance `errors` of `pat`. -/
def is_fuzzy_match (item pat : String) (errors : Nat) : Bool :=
  (windows item.toList).any fun t =>
    levenshtein Levenshtein.defaultCost pat.toList t ≤ errors

/-- Positions (0-based, in increasing order) of the elements satisfying
`p`; models `df[mask].index` for a positionally indexed frame. -/
def idxsWhere (p : α → Bool) : List α → List Nat
  | [] => []
  | a :: l => (if p a then [0] else []) ++ (idxsWhere p l).map (· + 1)

/-- Indices of the rows whose label fuzzy-matches `"subtotal"` with
error budget 2 (`split_closeout_df`'s `subtotal_idxs`). -/
def subtotal_idxs (df : List Record) : List Nat :=
  idxsWhere (fun r => is_fuzzy_match r.item "subtotal" 2) df

/-! ## String canonicalization (`_format_items`, `get_client_name`) -/

/-- Leading and trailing whitespace removal (Python `str.strip`). -/
def pyStrip (cs : List Char) : List Char :=
  ((cs.dropWhile Char.isWhitespace).reverse.dropWhile Char.isWhitespace).reverse

/-- Structural worker for `removeOcc`: `fuel` bounds the number of
steps; every step consumes at least one character, so `fuel = l.length`
always suffices and the fuel-exhausted clause is never reached on the
actual argument. -/
def removeOccAux (pat : List Char) : Nat → List Char → List Char
  | 0, l => l
  | _ + 1, [] => []
  | fuel + 1, c :: cs =>
    if pat.isPrefixOf (c :: cs) ∧ pat ≠ [] then
      removeOccAux pat fuel (cs.drop (pat.length - 1))
    else
      c :: removeOccAux pat fuel cs

/-- Python `str.replace pat ""` for a non-empty `pat`: remove the
non-overlapping occurrences of `pat`, scanning left to right. -/
def removeOcc (pat l : List Char) : List Char :=
  removeOccAux pat l.length l

/-- `CloseOutStatement._format_items`: lowercase, delete every `':'`
and `'-'`, strip surrounding whitespace. -/
def format_items (item : String) : String :=
  String.mk (pyStrip ((item.toList.map Char.toLower).filter
    fun c => ¬ (c = ':' ∨ c = '-')))

/-! ## Extraction errors

The Python code fails with uncaught `KeyError`/`IndexError`/
`AttributeError` exceptions; the spec's error taxonomy names the first
two failure families `StructureError` (malformed grid / missing
subtotals) and `NotFoundError` (a required unique field with zero fuzzy
matches).  `typeError` models the `AttributeError` raised by
`_format_items` on a non-string item cell. -/
inductive ExtractError where
  | structureError
  | notFoundError
  | typeError
deriving DecidableEq

/-! ## Section split (`split_closeout_df`) and medical items -/

/-- `CloseOutStatement.split_closeout_df`: split the normalized frame at
the first three subtotal rows.  `iloc[a:b]` is `drop a` + `take (b-a)`.
Fewer than three subtotal matches raises (`IndexError` on
`subtotal_idxs[k]`), the spec's `StructureError`. -/
def split_closeout_df (df : List Record) :
    Except ExtractError (List Record × List Record × List Record) :=
  match subtotal_idxs df with
  | i0 :: i1 :: i2 :: _ =>
      .ok (df.take (i0 + 1),
           (df.drop (i0 + 1)).take (i1 + 1 - (i0 + 1)),
           (df.drop (i1 + 1)).take (i2 + 1 - (i1 + 1)))
  | _ => .error .structureError

/-- `CloseOutStatement.get_medical_items`: the medical section without
its last three rows (`iloc[0:-3]`), then `dropna()` — which drops every
row with *any* missing field; since the item label is always present,
that means every row whose amount is absent. -/
def get_medical_items (df : List Record) : Except ExtractError (List Record) := do
  let (_, _, medical_df) ← split_closeout_df df
  pure ((medical_df.take (medical_df.length - 3)).filter fun r => r.amount.isSome)

/-! ## Unique-field lookups -/

/-- The amounts of the rows whose label fuzzy-matches `pat`, in document
order (`closeout_df[mask]['amount'].values`). -/
def matchingAmounts (df : List Record) (pat : String) (errors : Nat) :
    List (Option Entry) :=
  (df.filter fun r => is_fuzzy_match r.item pat errors).map (·.amount)

/-- The labels of the rows whose label fuzzy-matches `pat`, in document
order (`closeout_df[mask]['item'].values`). -/
def matchingItems (df : List Record) (pat : String) (errors : Nat) :
    List String :=
  (df.filter fun r => is_fuzzy_match r.item pat errors).map (·.item)

/-- `get_settlement_amount`: amount of the first row fuzzy-matching
`"amount of settlement"` (budget 3); `.values[0]` on an empty match set
raises, the spec's `NotFoundError`. -/
def get_settlement_amount (df : List Record) : Except ExtractError (Option Entry) :=
  match matchingAmounts df "amount of settlement" 3 with
  | [] => .error .notFoundError
  | v :: _ => .ok v

/-- `get_net_to_client_amount`: first `"net to client"` match, budget 3. -/
def get_net_to_client_amount (df : List Record) : Except ExtractError (Option Entry) :=
  match matchingAmounts df "net to client" 3 with
  | [] => .error .notFoundError
  | v :: _ => .ok v

/-- `get_total_expenses`: first `"total expenses"` match, budget 3. -/
def get_total_expenses (df : List Record) : Except ExtractError (Option Entry) :=
  match matchingAmounts df "total expenses" 3 with
  | [] => .error .notFoundError
  | v :: _ => .ok v

/-- `get_total_medical`: first `"total medical"` match, budget 3. -/
def get_total_medical (df : List Record) : Except ExtractError (Option Entry) :=
  match matchingAmounts df "total medical" 3 with
  | [] => .error .notFoundError
  | v :: _ => .ok v

/-- `get_client_name`: label of the first row fuzzy-matching `"name"`
(budget 1), with the substring `"name"` removed and whitespace
stripped. -/
def get_client_name (df : List Record) : Except ExtractError String :=
  match matchingItems df "name" 1 with
  | [] => .error .notFoundError
  | v :: _ => .ok (String.mk (pyStrip (removeOcc "name".toList v.toList)))

/-! ## StatementFacts (`parse_closeout_df`) -/

/-- The structured extraction result, one field per attribute stored by
`parse_closeout_df`. -/
structure StatementFacts where
  client_name : String
  settlement_amount : Option Entry
  net_to_client_amount : Option Entry
  total_expenses_amount : Option Entry
  total_medical_amount : Option Entry
  medical_items : List Record
deriving DecidableEq

/-- `CloseOutStatement.parse_closeout_df`: run the lookups in source
order; the first raising lookup aborts the whole parse, so no partial
facts value is ever produced. -/
def parse_closeout_df (df : List Record) : Except ExtractError StatementFacts := do
  let client_name ← get_client_name df
  let settlement_amount ← get_settlement_amount df
  let net_to_client_amount ← get_net_to_client_amount df
  let total_expenses_amount ← get_total_expenses df
  let total_medical_amount ← get_total_medical df
  let medical_items ← get_medical_items df
  pure ⟨client_name, settlement_amount, net_to_client_amount,
        total_expenses_amount, total_medical_amount, medical_items⟩

/-! ## Raw grid preprocessing (`preprocess_closeout_df`) -/

/-- The raw sheet as loaded by `read_excel(header=None)`: a list of rows
of optional entries.  Column `j` of a row is `row.getD j none`. -/
abbrev RawGrid := List (List (Option Entry))

/-- Number of columns of the loaded frame: the widest row. -/
def ncols (g : RawGrid) : Nat :=
  g.foldr (fun r acc => max r.length acc) 0

/-- Length of the `str()` image of a cell, used by the verbose-row
filter (`astype(str).applymap(len)`); `str(nan)` is `"nan"`. -/
def entryStrLen : Option Entry → Nat
  | none => 3
  | some (.str s) => s.length
  | some (.num n) => (toString n).length

/-- Column selection and merge for one row: the item label is column 1
if present else column 2 (`combine_first`), the amount is column 9. -/
def selectRow (row : List (Option Entry)) : Option Entry × Option Entry :=
  (match row.getD 1 none with
   | some e => some e
   | none => row.getD 2 none,
   row.getD 9 none)

/-- `CloseOutStatement.preprocess_closeout_df`: select/merge columns
1, 2, 9 (`KeyError`, i.e. `StructureError`, if the sheet has fewer than
10 columns), drop all-empty rows, drop verbose rows (> 150 characters in
any field), then canonicalize the labels (`AttributeError`, modelled
`typeError`, if a surviving row's item cell is not a string). -/
def preprocess_closeout_df (g : RawGrid) : Except ExtractError (List Record) :=
  if ncols g < 10 then .error .structureError
  else
    (((g.map selectRow).filter
        fun p => p.1.isSome || p.2.isSome).filter
        fun p => entryStrLen p.1 ≤ 150 && entryStrLen p.2 ≤ 150).mapM
      fun p =>
        match p.1 with
        | some (.str s) => .ok (⟨format_items s, p.2⟩ : Record)
        | _ => .error .typeError

/-- The whole extraction: preprocess the raw grid, then parse the
normalized frame. -/
def extract_facts (g : RawGrid) : Except ExtractError StatementFacts := do
  parse_closeout_df (← preprocess_closeout_df g)

/-! ## Layout (`BreakdownWriter.__init__` row arithmetic) -/

/-- `BreakdownWriter.title_final_row`. -/
def title_final_row : Nat := 8

/-- `BreakdownWriter.rates_top_row`. -/
def rates_top_row : Nat := 34

/-- `BreakdownWriter.get_med_table_final_row`:
`10 + len(get_medical_items())`. -/
def get_med_table_final_row (n_items : Nat) : Nat := 10 + n_items

/-- `BreakdownWriter.med_table_rows`:
`list(range(title_final_row + 1, title_final_row + 1 + n_items + 1))`. -/
def med_table_rows (n_items : Nat) : List Nat :=
  List.range' (title_final_row + 1) (n_items + 1)

/-- `BreakdownWriter.bottom_section_first_row`. -/
def bottom_section_first_row (n_items : Nat) : Nat :=
  get_med_table_final_row n_items + 2

/-! ## Cell contents

The Python writer stores literal values and formula *strings* built by
f-string interpolation of the layout rows; formulas are modelled as an
expression tree carrying the same references and constants. -/

/-- A spreadsheet formula expression. -/
inductive FExpr where
  | lit (q : ℚ)
  | ref (col : Char) (row : Nat)
  | add (a b : FExpr)
  | sub (a b : FExpr)
  | mul (a b : FExpr)
  | div (a b : FExpr)
  | sumRange (col : Char) (lo hi : Nat)
deriving DecidableEq

/-- The cell references a formula mentions; a `SUM(Xlo:Xhi)` range
references every cell of rows `lo..hi` of column `X`. -/
def refsOf : FExpr → List (Char × Nat)
  | .lit _ => []
  | .ref c r => [(c, r)]
  | .add a b => refsOf a ++ refsOf b
  | .sub a b => refsOf a ++ refsOf b
  | .mul a b => refsOf a ++ refsOf b
  | .div a b => refsOf a ++ refsOf b
  | .sumRange c lo hi => (List.range' lo (hi + 1 - lo)).map fun r => (c, r)

/-- A value written into a cell: a literal number, a literal text, a
value copied untouched from the source frame (possibly `NaN`), or a
formula. -/
inductive CellVal where
  | num (q : ℚ)
  | text (s : String)
  | srcVal (v : Option Entry)
  | form (e : FExpr)
deriving DecidableEq

/-- Whether a cell value is a formula. -/
def isForm : CellVal → Bool
  | .form _ => true
  | _ => false

/-- The references of a cell's formula (empty for non-formulas). -/
def formRefs : CellVal → List (Char × Nat)
  | .form e => refsOf e
  | _ => []

/-- Errors raised while building the breakdown sheet: a failing
extraction lookup, a `TypeError` from `abs()`/`.abs()` on a non-numeric
amount, or the `IndexError` from `med_table_rows[1]`. -/
inductive BuildError where
  | extractErr (e : ExtractError)
  | typeError
  | indexError
deriving DecidableEq

/-- A sheet is the ordered list of (column, row) ↦ value writes. -/
abbrev Assignment := (Char × Nat) × CellVal

/-! ## Column A financials (`insert_column_a_financials`) -/

/-- Header texts of the left financial column. -/
def column_a_header_values : List String :=
  ["Settlement Amount",
   "Amount Stated to Providers",
   "1/3 of Settlement for Meds",
   "Attorney Fees",
   "% to Business",
   "OJ",
   "Expenses",
   "Total to Business",
   "Net to Client"]

/-- `range(title_final_row + 1, title_final_row + 1 + 9 * 2, 2)`. -/
def column_a_header_rows : List Nat := List.range' (title_final_row + 1) 9 2

/-- The header writes of column A. -/
def column_a_headers : List Assignment :=
  (column_a_header_rows.map fun r => ('A', r)).zip
    (column_a_header_values.map CellVal.text)

/-- `0.4 if is_lit else 1/3` (Python floats modelled as rationals). -/
def attorney_fees_factor (is_lit : Bool) : ℚ := if is_lit then 2/5 else 1/3

/-- `abs(...)` applied to a value fetched from the source frame:
numbers yield their absolute value, `NaN` stays `NaN`, and a string
raises `TypeError`. -/
def absEntry : Option Entry → Except BuildError CellVal
  | some (.num n) => .ok (.num ((n.natAbs : ℚ)))
  | some (.str _) => .error .typeError
  | none => .ok (.srcVal none)

/-- `insert_column_a_financials_amounts`'s `amount_values` list, in
source order: settlement amount (raw), 0, `=A10/3`, the attorney-fee
formula, `=A16*B{rates_top_row+1}`, `=A14-D{med_table_final_row}`,
`abs(total_expenses)`, `=A18+A20+A22`, and the net-to-client formula. -/
def column_a_amount_values (settlement texp : Option Entry) (is_lit : Bool)
    (n_items : Nat) : Except BuildError (List CellVal) := do
  let expensesCell ← absEntry texp
  .ok [CellVal.srcVal settlement,
       CellVal.num 0,
       CellVal.form (.div (.ref 'A' 10) (.lit 3)),
       CellVal.form (.sub (.mul (.ref 'A' 10) (.lit (attorney_fees_factor is_lit)))
         (.ref 'B' (bottom_section_first_row n_items + 5))),
       CellVal.form (.mul (.ref 'A' 16) (.ref 'B' (rates_top_row + 1))),
       CellVal.form (.sub (.ref 'A' 14) (.ref 'D' (get_med_table_final_row n_items))),
       expensesCell,
       CellVal.form (.add (.add (.ref 'A' 18) (.ref 'A' 20)) (.ref 'A' 22)),
       CellVal.form (.sub (.sub (.sub (.sub (.sub (.ref 'A' 10) (.ref 'A' 16))
         (.ref 'A' 20)) (.ref 'A' 22)) (.ref 'D' (get_med_table_final_row n_items)))
         (.ref 'B' (bottom_section_first_row n_items + 3)))]

/-- `range(title_final_row + 2, title_final_row + 2 + 9 * 2, 2)`:
rows 10, 12, ..., 26. -/
def column_a_amount_rows : List Nat := List.range' (title_final_row + 2) 9 2

/-- The amount writes of column A (`zip(amount_rows, amount_values)`). -/
def column_a_amounts (settlement texp : Option Entry) (is_lit : Bool)
    (n_items : Nat) : Except BuildError (List Assignment) := do
  let vals ← column_a_amount_values settlement texp is_lit n_items
  .ok ((column_a_amount_rows.map fun r => ('A', r)).zip vals)

/-! ## Medical table (`insert_medical_table`) -/

/-- One extracted medical line item: provider label and (numeric)
billed amount as found in the source. -/
structure MedItem where
  provider : String
  amount : Int
deriving DecidableEq

/-- The medical-table header row. -/
def med_headers : List CellVal :=
  [.text "Medical Provider", .text "Billed Amount",
   .text "Paid/Projected Amount", .text "Comments"]

/-- One medical-table item row, after `med_items['amount'].abs()` and
the added zero "paid" and `"-"` comment placeholder columns. -/
def med_item_row (it : MedItem) : List CellVal :=
  [.text it.provider, .num ((it.amount.natAbs : ℚ)), .num 0, .text "-"]

/-- `generate_medical_table_items`: header row plus one row per item. -/
def generate_medical_table_items (items : List MedItem) : List (List CellVal) :=
  med_headers :: items.map med_item_row

/-- The medical-table columns. -/
def med_cols : List Char := ['B', 'C', 'D', 'E']

/-- `generate_medical_table_cells`: `itertools.product(med_cols, med_table_rows)`. -/
def generate_medical_table_cells (n_items : Nat) : List (Char × Nat) :=
  med_cols.flatMap fun c => (med_table_rows n_items).map fun r => (c, r)

/-- `[item for col in zip(*med_table) for item in col]`: the table read
column-by-column; every row of the table has exactly 4 entries. -/
def med_table_flat (tbl : List (List CellVal)) : List CellVal :=
  (List.range 4).flatMap fun ci => tbl.map fun row => row.getD ci (.text "")

/-- The cell writes of the medical table body:
`zip(med_cells, med_table_flat)`. -/
def medAssignments (items : List MedItem) : List Assignment :=
  (generate_medical_table_cells items.length).zip
    (med_table_flat (generate_medical_table_items items))

/-- `insert_total_medical_row`: the totals row at `med_table_final_row`,
with `SUM` formulas from `med_table_rows[1]` to `med_table_rows[-1]`;
`med_table_rows[1]` raises `IndexError` when the table has no item
rows. -/
def insert_total_medical_row (n_items : Nat) : Except BuildError (List Assignment) :=
  match (med_table_rows n_items).get? 1, (med_table_rows n_items).getLast? with
  | some r1, some rl =>
      .ok [(('B', get_med_table_final_row n_items), .text "Total"),
           (('C', get_med_table_final_row n_items), .form (.sumRange 'C' r1 rl)),
           (('D', get_med_table_final_row n_items), .form (.sumRange 'D' r1 rl))]
  | _, _ => .error .indexError

/-! ## Column B financials, payouts, rates (`insert_column_b_financials`,
`insert_payouts_section`, `insert_rates`) -/

/-- Header writes of column B:
`range(bottom_section_first_row, bottom_section_first_row + 10, 2)`. -/
def column_b_headers (n_items : Nat) : List Assignment :=
  ((List.range' (bottom_section_first_row n_items) 5 2).map fun r => ('B', r)).zip
    (["Total to be Split to Owners",
      "33.33% OR 10% OR Joe Ref INSERT AMOUNT BELOW",
      "Google Atty Portion",
      "Google Business Portion",
      "INSERT 500 BELOW IF LINDALE (goes to mkt acct)"].map CellVal.text)

/-- Amount writes of column B:
`range(bottom_section_first_row + 1, bottom_section_first_row + 10, 2)`. -/
def column_b_amounts (n_items : Nat) : List Assignment :=
  ((List.range' (bottom_section_first_row n_items + 1) 5 2).map fun r => ('B', r)).zip
    [CellVal.form (.sub (.mul (.ref 'A' 16) (.ref 'B' rates_top_row))
       (.ref 'B' (bottom_section_first_row n_items + 5))),
     CellVal.num 0, CellVal.num 0, CellVal.num 0, CellVal.num 0]

/-- The nine payout account names (the source zips ten rows against
nine names, so only nine rows are written). -/
def payout_names : List String :=
  ["AP/CN",
   "Jerry",
   "CASE MANAGER",
   "Business",
   "Total to Business",
   "MKT",
   "CSH",
   "10% or 1/3 or Joe Referral (Write From Operating and give 1099)",
   "BLD"]

/-- The nine payout amount formulas, `b` the bottom-section first row. -/
def payout_amounts (n_items : Nat) : List CellVal :=
  [CellVal.form (.div (.sub (.ref 'B' (bottom_section_first_row n_items + 1))
     (.ref 'D' (bottom_section_first_row n_items + 1))) (.lit 2)),
   CellVal.form (.mul (.ref 'B' (bottom_section_first_row n_items + 1)) (.lit (13/100))),
   CellVal.form (.mul (.ref 'A' 16) (.ref 'B' (rates_top_row + 2))),
   CellVal.form (.sub (.ref 'A' 24) (.ref 'B' (bottom_section_first_row n_items + 7))),
   CellVal.form (.add (.add (.add (.add (.add (.add (.add
     (.mul (.ref 'D' (bottom_section_first_row n_items)) (.lit 2))
     (.ref 'D' (bottom_section_first_row n_items + 1)))
     (.ref 'D' (bottom_section_first_row n_items + 2)))
     (.ref 'D' (bottom_section_first_row n_items + 3)))
     (.ref 'D' (bottom_section_first_row n_items + 6)))
     (.ref 'B' (bottom_section_first_row n_items + 3)))
     (.ref 'B' (bottom_section_first_row n_items + 5)))
     (.ref 'B' (bottom_section_first_row n_items + 7))),
   CellVal.form (.add (.mul (.ref 'A' 16) (.lit (2825/10000)))
     (.add (.add (.ref 'B' (bottom_section_first_row n_items + 5))
       (.ref 'B' (bottom_section_first_row n_items + 7)))
       (.ref 'B' (bottom_section_first_row n_items + 9)))),
   CellVal.form (.mul (.ref 'A' 16) (.ref 'B' (rates_top_row + 3))),
   CellVal.form (.ref 'B' (bottom_section_first_row n_items + 3)),
   CellVal.form (.mul (.ref 'A' 16) (.lit (4/100)))]

/-- `insert_payouts_section`: name and amount writes for the payout
rows, plus the "Total to Operating" cell pair. -/
def payouts_assignments (n_items : Nat) : List Assignment :=
  (((List.range' (bottom_section_first_row n_items) 10).zip
      ((payout_names.map CellVal.text).zip (payout_amounts n_items))).flatMap
    fun p => [(('C', p.1), p.2.1), (('D', p.1), p.2.2)]) ++
  [(('F', bottom_section_first_row n_items), .text "Total to Operating"),
   (('G', bottom_section_first_row n_items), .form
     (.sub (.sub (.sub (.sub (.ref 'D' (bottom_section_first_row n_items + 4))
       (.sumRange 'D' (bottom_section_first_row n_items)
         (bottom_section_first_row n_items + 2)))
       (.sumRange 'D' (bottom_section_first_row n_items + 5)
         (bottom_section_first_row n_items + 8)))
       (.ref 'D' (bottom_section_first_row n_items)))
       (.ref 'A' 20)))]

/-- `insert_rates` plus `insert_rates_comments`: the rates block rows
34–39 and the fixed comment cells. -/
def rates_assignments : List Assignment :=
  (((List.range' rates_top_row 6).zip
      ((["AP/CN", "Firm", "Commission", "To Cash\u0027s",
         "THIS CELL MUST ALWAYS EQUAL 1.0000",
         "Jerry % Calculation"].map CellVal.text).zip
       [CellVal.num (25/100), CellVal.num (71/100), CellVal.num (1/100),
        CellVal.num (7/100 - 4/100),
        CellVal.form (.sumRange 'B' rates_top_row (rates_top_row + 3)),
        CellVal.form (.mul (.lit (6/100))
          (.sub (.lit 1) (.ref 'B' (rates_top_row + 3))))])).flatMap
    fun p => [(('A', p.1), p.2.1), (('B', p.1), p.2.2)]) ++
  [(('C', 34), .text "<- DO NOT CHANGE"),
   (('C', 35), .text "<- DO NOT CHANGE"),
   (('C', 39), .text "CHANGE 0.06 remains constant."),
   (('D', 35), .text "From 0.71 change to 0.705"),
   (('D', 36), .text "For 1.5% change to 0.015"),
   (('E', 35), .text "From 0.71 change to 0.69"),
   (('E', 36), .text "For 3% (Ana + Ray) change to 0.03")]

/-! ## Whole-sheet construction (`BreakdownWriter.__init__`) -/

/-- Conversion of an extracted medical record to a writer item; pandas
`.abs()` on a non-numeric or missing amount raises `TypeError`.
(`get_medical_items` has already dropped the amount-less rows.) -/
def toMedItem (r : Record) : Except BuildError MedItem :=
  match r.amount with
  | some (.num n) => .ok ⟨r.item, n⟩
  | _ => .error .typeError

/-- Sequential fallible map, the first failure aborting, as a Python
loop over the rows would. -/
def mapExcept (f : α → Except ε β) : List α → Except ε (List β)
  | [] => .ok []
  | a :: l => do
    let b ← f a
    let bs ← mapExcept f l
    .ok (b :: bs)

/-- `BreakdownWriter.__init__` of a closeout statement: compute the
layout from the medical-item count (this calls `get_medical_items`
first), then write the title block, column A, the medical table with its
totals row, column B, the payouts section and the rates block, in
source order.  Any extraction failure, type failure, or the
`med_table_rows[1]` `IndexError` aborts construction: no sheet (and so
no output workbook) is produced. -/
def buildSheet (df : List Record) (is_lit : Bool) :
    Except BuildError (List Assignment) := do
  let meds ← (get_medical_items df).mapError BuildError.extractErr
  let client ← (get_client_name df).mapError BuildError.extractErr
  let settlement ← (get_settlement_amount df).mapError BuildError.extractErr
  let texp ← (get_total_expenses df).mapError BuildError.extractErr
  let colA ← column_a_amounts settlement texp is_lit meds.length
  let items ← mapExcept toMedItem meds
  let totals ← insert_total_medical_row items.length
  .ok ([(('B', 5), CellVal.text "STATEMENT OF BREAKDOWN"),
        (('B', 6), CellVal.text client)] ++
       column_a_headers ++ colA ++
       medAssignments items ++ totals ++
       column_b_headers items.length ++ column_b_amounts items.length ++
       payouts_assignments items.length ++ rates_assignments)

/-! ## The spec's description of the itemized medical list

For the refinement comparison of claim C5 only: the itemized medical
list as the spec's words describe it — the medical section with its
first record (the header) and its last three records excluded, and any
remaining fully-empty row dropped ("fully empty" read as an empty label
and no amount, the closest notion the normalized frame admits). -/
def medical_items_spec (medical_df : List Record) : List Record :=
  ((medical_df.drop 1).take (medical_df.length - 4)).filter
    fun r => ¬ (r.item = "" ∧ r.amount = none)

/-! ## Concrete inputs used by witnesses and counterexamples

Label spellings are already in canonicalized (`_format_items`) form,
as they stand in the normalized frame the operations consume. -/

/-- A normalized statement with one record after its third subtotal
row. -/
def df1 : List Record :=
  [⟨"intro", some (.num 1)⟩,
   ⟨"subtotal", some (.num 1)⟩,
   ⟨"fee", some (.num 2)⟩,
   ⟨"subtotal", some (.num 2)⟩,
   ⟨"dr a", some (.num 100)⟩,
   ⟨"subtotal", some (.num 100)⟩,
   ⟨"extra", some (.num 7)⟩]

/-- A normalized statement whose medical section holds, between its
header and its three trailing summary rows, an itemized row with no
amount (`"xray"`) and one with an amount (`"dr a"`). -/
def df5 : List Record :=
  [⟨"a", some (.num 1)⟩,
   ⟨"subtotal", some (.num 1)⟩,
   ⟨"fee", some (.num 2)⟩,
   ⟨"subtotal", some (.num 2)⟩,
   ⟨"prov", none⟩,
   ⟨"xray", none⟩,
   ⟨"dr a", some (.num 100)⟩,
   ⟨"total medical", some (.num 100)⟩,
   ⟨"reduc", some (.num 0)⟩,
   ⟨"subtotal", some (.num 100)⟩]

/-- A complete, parseable normalized statement whose source
total-expenses amount is negative. -/
def df8 : List Record :=
  [⟨"name jd", none⟩,
   ⟨"amount of settlement", some (.num 100000)⟩,
   ⟨"subtotal", some (.num 100000)⟩,
   ⟨"total expenses", some (.num (-5000))⟩,
   ⟨"subtotal", some (.num (-5000))⟩,
   ⟨"prov", none⟩,
   ⟨"dr a", some (.num 3000)⟩,
   ⟨"total medical", some (.num 3000)⟩,
   ⟨"reduc", some (.num 0)⟩,
   ⟨"subtotal", some (.num 3000)⟩,
   ⟨"net to client", some (.num 70000)⟩]

/-- A parseable-by-the-writer statement whose medical section holds no
itemized rows with amounts: zero medical items. -/
def df0 : List Record :=
  [⟨"name jd", none⟩,
   ⟨"amount of settlement", some (.num 90000)⟩,
   ⟨"subtotal", some (.num 90000)⟩,
   ⟨"total expenses", some (.num 40)⟩,
   ⟨"subtotal", some (.num 40)⟩,
   ⟨"prov", none⟩,
   ⟨"total medical", some (.num 0)⟩,
   ⟨"reduc", some (.num 0)⟩,
   ⟨"subtotal", some (.num 0)⟩]

/-- A statement with every unique field present but only two subtotal
rows. -/
def df7b : List Record :=
  [⟨"name jd", none⟩,
   ⟨"amount of settlement", some (.num 1)⟩,
   ⟨"net to client", some (.num 2)⟩,
   ⟨"total expenses", some (.num 3)⟩,
   ⟨"total medical", some (.num 4)⟩,
   ⟨"subtotal", some (.num 5)⟩,
   ⟨"subtotal", some (.num 6)⟩]

/-- A statement with no row matching `"net to client"`. -/
def df7c : List Record :=
  [⟨"name jd", none⟩,
   ⟨"amount of settlement", some (.num 1)⟩,
   ⟨"total expenses", some (.num 2)⟩,
   ⟨"total medical", some (.num 3)⟩]

/-- A statement in which every supposedly-unique field matches two
rows. -/
def df9 : List Record :=
  [⟨"amount of settlement", some (.num 111)⟩,
   ⟨"amount of settlement", some (.num 222)⟩,
   ⟨"net to client", some (.num 11)⟩,
   ⟨"net to client", some (.num 22)⟩,
   ⟨"total expenses", some (.num 31)⟩,
   ⟨"total expenses", some (.num 32)⟩,
   ⟨"total medical", some (.num 41)⟩,
   ⟨"total medical", some (.num 42)⟩,
   ⟨"name a", none⟩,
   ⟨"name b", none⟩]

/-- A raw grid one column wide: the expected columns 1, 2, 9 are
missing. -/
def gBad : RawGrid := [[some (.str "x")]]

/-- A one-item medical list. -/
def c3items : List MedItem := [⟨"dr a", 3000⟩]

/-! ## General lemmas about the embedded operations -/

theorem ok_bind {ε α β : Type} (a : α) (f : α → Except ε β) :
    (Except.ok a : Except ε α) >>= f = f a := rfl

theorem error_bind {ε α β : Type} (e : ε) (f : α → Except ε β) :
    (Except.error e : Except ε α) >>= f = .error e := rfl

theorem mapError_ok {ε ε' α : Type} (a : α) (f : ε → ε') :
    (Except.ok a : Except ε α).mapError f = .ok a := rfl

theorem mapError_error {ε ε' α : Type} (e : ε) (f : ε → ε') :
    (Except.error e : Except ε α).mapError f = .error (f e) := rfl

theorem idxsWhere_chain (p : α → Bool) (l : List α) :
    List.Chain' (· < ·) (idxsWhere p l) := by
  induction l with
  | nil => simp [idxsWhere]
  | cons a l ih =>
    have hm : List.Chain' (· < ·) ((idxsWhere p l).map (· + 1)) := by
      rw [List.chain'_map]
      exact List.Chain'.imp (fun x y h => by omega) ih
    by_cases h : p a
    · simp only [idxsWhere, h, if_pos, List.singleton_append]
      rw [List.chain'_cons']
      refine ⟨?_, hm⟩
      intro b hb
      rcases idxsWhere p l with _ | ⟨x, xs⟩ <;> simp_all <;> omega
    · simpa [idxsWhere, h] using hm

theorem idxsWhere_lt_length (p : α → Bool) (l : List α) (i : Nat)
    (h : i ∈ idxsWhere p l) : i < l.length := by
  induction l generalizing i with
  | nil => simp [idxsWhere] at h
  | cons a l ih =>
    simp only [idxsWhere, List.mem_append, List.mem_map] at h
    rcases h with h | ⟨j, hj, rfl⟩
    · rcases Bool.eq_false_or_eq_true (p a) with hp | hp <;> simp [hp] at h
      simp [h]
    · have := ih j hj
      simp only [List.length_cons]
      omega

theorem idxsWhere_getD (p : α → Bool) (l : List α) (i : Nat) (d : α)
    (h : i ∈ idxsWhere p l) : p (l.getD i d) = true := by
  induction l generalizing i with
  | nil => simp [idxsWhere] at h
  | cons a l ih =>
    simp only [idxsWhere, List.mem_append, List.mem_map] at h
    rcases h with h | ⟨j, hj, rfl⟩
    · rcases Bool.eq_false_or_eq_true (p a) with hp | hp <;> simp [hp] at h
      simp [h, hp]
    · simpa using ih j hj

theorem mem_windows (t l : List Char) : t ∈ windows l ↔ t <:+: l := by
  constructor
  · intro h
    rw [windows, List.mem_flatMap] at h
    obtain ⟨s, hs, ht⟩ := h
    rw [List.mem_tails] at hs
    rw [List.mem_inits] at ht
    obtain ⟨u, hu⟩ := ht
    obtain ⟨v, hv⟩ := hs
    exact ⟨v, u, by rw [List.append_assoc, hu, hv]⟩
  · rintro ⟨v, u, h⟩
    rw [windows, List.mem_flatMap]
    refine ⟨t ++ u, (List.mem_tails (t ++ u) l).mpr ⟨v, by rw [← List.append_assoc, h]⟩,
      (List.mem_inits t (t ++ u)).mpr ⟨u, rfl⟩⟩

theorem is_fuzzy_match_iff (item pat : String) (errors : Nat) :
    is_fuzzy_match item pat errors = true ↔
      ∃ t, t <:+: item.toList ∧
        levenshtein Levenshtein.defaultCost pat.toList t ≤ errors := by
  rw [is_fuzzy_match, List.any_eq_true]
  constructor
  · rintro ⟨t, ht, hd⟩
    exact ⟨t, (mem_windows t _).mp ht, of_decide_eq_true hd⟩
  · rintro ⟨t, ht, hd⟩
    exact ⟨t, (mem_windows t _).mpr ht, decide_eq_true hd⟩

/-! Helper characterizations of the unique-field getters. -/

theorem get_settlement_amount_cons (df : List Record) (v : Option Entry)
    (rest : List (Option Entry))
    (h : matchingAmounts df "amount of settlement" 3 = v :: rest) :
    get_settlement_amount df = .ok v := by
  rw [get_settlement_amount, h]

theorem get_settlement_amount_nil (df : List Record)
    (h : matchingAmounts df "amount of settlement" 3 = []) :
    get_settlement_amount df = .error .notFoundError := by
  rw [get_settlement_amount, h]

theorem get_net_to_client_amount_cons (df : List Record) (v : Option Entry)
    (rest : List (Option Entry))
    (h : matchingAmounts df "net to client" 3 = v :: rest) :
    get_net_to_client_amount df = .ok v := by
  rw [get_net_to_client_amount, h]

theorem get_net_to_client_amount_nil (df : List Record)
    (h : matchingAmounts df "net to client" 3 = []) :
    get_net_to_client_amount df = .error .notFoundError := by
  rw [get_net_to_client_amount, h]

theorem get_total_expenses_cons (df : List Record) (v : Option Entry)
    (rest : List (Option Entry))
    (h : matchingAmounts df "total expenses" 3 = v :: rest) :
    get_total_expenses df = .ok v := by
  rw [get_total_expenses, h]

theorem get_total_expenses_nil (df : List Record)
    (h : matchingAmounts df "total expenses" 3 = []) :
    get_total_expenses df = .error .notFoundError := by
  rw [get_total_expenses, h]

theorem get_total_medical_cons (df : List Record) (v : Option Entry)
    (rest : List (Option Entry))
    (h : matchingAmounts df "total medical" 3 = v :: rest) :
    get_total_medical df = .ok v := by
  rw [get_total_medical, h]

theorem get_total_medical_nil (df : List Record)
    (h : matchingAmounts df "total medical" 3 = []) :
    get_total_medical df = .error .notFoundError := by
  rw [get_total_medical, h]

theorem get_client_name_cons (df : List Record) (v : String)
    (rest : List String) (h : matchingItems df "name" 1 = v :: rest) :
    get_client_name df = .ok (String.mk (pyStrip (removeOcc "name".toList v.toList))) := by
  rw [get_client_name, h]

theorem get_client_name_nil (df : List Record)
    (h : matchingItems df "name" 1 = []) :
    get_client_name df = .error .notFoundError := by
  rw [get_client_name, h]

/-- A successful parse forces every lookup to have succeeded with the
corresponding field's value. -/
theorem parse_ok_fields (df : List Record) (f : StatementFacts)
    (h : parse_closeout_df df = .ok f) :
    get_client_name df = .ok f.client_name ∧
    get_settlement_amount df = .ok f.settlement_amount ∧
    get_net_to_client_amount df = .ok f.net_to_client_amount ∧
    get_total_expenses df = .ok f.total_expenses_amount ∧
    get_total_medical df = .ok f.total_medical_amount ∧
    get_medical_items df = .ok f.medical_items := by
  rcases hc : get_client_name df with e | c
  · have : parse_closeout_df df = .error e := by rw [parse_closeout_df, hc]; rfl
    rw [this] at h; cases h
  rcases hs : get_settlement_amount df with e | s
  · have : parse_closeout_df df = .error e := by rw [parse_closeout_df, hc, hs]; rfl
    rw [this] at h; cases h
  rcases hn : get_net_to_client_amount df with e | n
  · have : parse_closeout_df df = .error e := by
      rw [parse_closeout_df, hc, hs, hn]; rfl
    rw [this] at h; cases h
  rcases ht : get_total_expenses df with e | t
  · have : parse_closeout_df df = .error e := by
      rw [parse_closeout_df, hc, hs, hn, ht]; rfl
    rw [this] at h; cases h
  rcases hm : get_total_medical df with e | m
  · have : parse_closeout_df df = .error e := by
      rw [parse_closeout_df, hc, hs, hn, ht, hm]; rfl
    rw [this] at h; cases h
  rcases hi : get_medical_items df with e | mi
  · have : parse_closeout_df df = .error e := by
      rw [parse_closeout_df, hc, hs, hn, ht, hm, hi]; rfl
    rw [this] at h; cases h
  have : parse_closeout_df df = .ok ⟨c, s, n, t, m, mi⟩ := by
    rw [parse_closeout_df, hc, hs, hn, ht, hm, hi]; rfl
  rw [this] at h
  injection h with h2
  rw [← h2]
  exact ⟨rfl, rfl, rfl, rfl, rfl, rfl⟩

/-- A list of records all of whose amounts are numeric converts to a
writer item list of the same length. -/
theorem mapExcept_toMedItem_ok (meds : List Record)
    (h : ∀ r ∈ meds, ∃ k : Int, r.amount = some (.num k)) :
    ∃ items, mapExcept toMedItem meds = .ok items ∧
      items.length = meds.length := by
  induction meds with
  | nil => exact ⟨[], rfl, rfl⟩
  | cons a l ih =>
    obtain ⟨k, hk⟩ := h a (List.mem_cons_self a l)
    obtain ⟨its, hits, hlen⟩ := ih fun r hr => h r (List.mem_cons_of_mem a hr)
    refine ⟨⟨a.item, k⟩ :: its, ?_, by simp [hlen]⟩
    show (do
      let b ← toMedItem a
      let bs ← mapExcept toMedItem l
      .ok (b :: bs)) = _
    rw [toMedItem, hk, hits]
    rfl

/-! Layout-row facts used by the totals-row theorems. -/

theorem med_table_rows_get_one (n : Nat) (h : 1 ≤ n) :
    (med_table_rows n).get? 1 = some 10 := by
  obtain ⟨m, rfl⟩ : ∃ m, n = m + 1 := ⟨n - 1, by omega⟩
  rw [med_table_rows, List.range'_succ, List.range'_succ]
  rfl

theorem med_table_rows_getLast (n : Nat) :
    (med_table_rows n).getLast? = some (9 + n) := by
  have hc : med_table_rows n = List.range' 9 n ++ [9 + n] := by
    simpa [med_table_rows, title_final_row] using List.range'_1_concat 9 n
  rw [hc, List.getLast?_concat]

theorem insert_total_medical_row_ok (n : Nat) (h : 1 ≤ n) :
    insert_total_medical_row n =
      .ok [(('B', 10 + n), .text "Total"),
           (('C', 10 + n), .form (.sumRange 'C' 10 (9 + n))),
           (('D', 10 + n), .form (.sumRange 'D' 10 (9 + n)))] := by
  rw [insert_total_medical_row, med_table_rows_get_one n h, med_table_rows_getLast]
  rfl

theorem insert_total_medical_row_zero :
    insert_total_medical_row 0 = .error .indexError := rfl

/-! Decomposition of the medical-table cell writes, column by column. -/

theorem zip_flatMap_cols (cols : List Char) (cidxs : List Nat)
    (rows : List Nat) (tbl : List (List CellVal))
    (hlen : rows.length = tbl.length) :
    (cols.flatMap fun c => rows.map fun r => (c, r)).zip
        (cidxs.flatMap fun ci => tbl.map fun row => row.getD ci (.text "")) =
      (cols.zip cidxs).flatMap fun p =>
        (rows.map fun r => (p.1, r)).zip
          (tbl.map fun row => row.getD p.2 (.text "")) := by
  induction cols generalizing cidxs with
  | nil => simp
  | cons c cs ih =>
    cases cidxs with
    | nil => simp
    | cons ci cis =>
      simp only [List.flatMap_cons, List.zip_cons_cons]
      rw [List.zip_append (by simp [hlen]), ih]

theorem filter_col_piece_ne (c c' : Char) (h : ¬ (c = c')) (rows : List Nat)
    (tbl : List (List CellVal)) (ci : Nat) :
    ((rows.map fun r => (c, r)).zip
        (tbl.map fun row => row.getD ci (CellVal.text ""))).filter
      (fun a => a.1.1 = c') = [] := by
  rw [List.zip_map]
  apply List.filter_eq_nil_iff.mpr
  intro a ha
  obtain ⟨x, _, rfl⟩ := List.mem_map.mp ha
  obtain ⟨r, row⟩ := x
  simpa [Prod.map] using h

theorem filter_col_piece_eq (c : Char) (rows : List Nat)
    (tbl : List (List CellVal)) (ci : Nat) :
    ((rows.map fun r => (c, r)).zip
        (tbl.map fun row => row.getD ci (CellVal.text ""))).filter
      (fun a => a.1.1 = c) =
    (rows.zip tbl).map fun p => ((c, p.1), p.2.getD ci (CellVal.text "")) := by
  rw [List.zip_map]
  have hall : ∀ a ∈ (rows.zip tbl).map
      (Prod.map (fun r => (c, r)) fun row => row.getD ci (CellVal.text "")),
      (fun a => decide (a.1.1 = c)) a = true := by
    intro a ha
    obtain ⟨x, _, rfl⟩ := List.mem_map.mp ha
    obtain ⟨r, row⟩ := x
    simp [Prod.map]
  rw [List.filter_eq_self.mpr hall]
  apply List.map_congr_left
  rintro ⟨r, row⟩ _
  rfl

/-- Among the medical-table body writes, the column-C cells are exactly
the `"Billed Amount"` header at row 9 followed by one billed amount per
item at rows 10, 11, ..., `9 + n_items`. -/
theorem medAssignments_filter_c (items : List MedItem) :
    (medAssignments items).filter (fun a => a.1.1 = 'C') =
      (('C', 9), CellVal.text "Billed Amount") ::
        ((List.range' 10 items.length).zip items).map
          (fun p => (('C', p.1), CellVal.num ((p.2.amount.natAbs : ℚ)))) := by
  have hlen : (med_table_rows items.length).length =
      (generate_medical_table_items items).length := by
    simp [med_table_rows, generate_medical_table_items]
  have hflat : med_table_flat (generate_medical_table_items items) =
      ([0, 1, 2, 3] : List Nat).flatMap
        (fun ci => (generate_medical_table_items items).map
          fun row => row.getD ci (CellVal.text "")) := rfl
  have hcells : generate_medical_table_cells items.length =
      med_cols.flatMap
        (fun c => (med_table_rows items.length).map fun r => (c, r)) := rfl
  rw [medAssignments, hcells, hflat,
    zip_flatMap_cols med_cols [0, 1, 2, 3] _ _ hlen]
  have hexp : (med_cols.zip ([0, 1, 2, 3] : List Nat)).flatMap
      (fun p => ((med_table_rows items.length).map fun r => (p.1, r)).zip
        ((generate_medical_table_items items).map
          fun row => row.getD p.2 (CellVal.text ""))) =
      (((med_table_rows items.length).map fun r => ('B', r)).zip
        ((generate_medical_table_items items).map
          fun row => row.getD 0 (CellVal.text ""))) ++
      ((((med_table_rows items.length).map fun r => ('C', r)).zip
        ((generate_medical_table_items items).map
          fun row => row.getD 1 (CellVal.text ""))) ++
      ((((med_table_rows items.length).map fun r => ('D', r)).zip
        ((generate_medical_table_items items).map
          fun row => row.getD 2 (CellVal.text ""))) ++
      ((((med_table_rows items.length).map fun r => ('E', r)).zip
        ((generate_medical_table_items items).map
          fun row => row.getD 3 (CellVal.text ""))) ++ []))) := rfl
  rw [hexp]
  rw [List.filter_append, List.filter_append, List.filter_append,
    List.filter_append]
  rw [filter_col_piece_ne 'B' 'C' (by decide),
    filter_col_piece_ne 'D' 'C' (by decide),
    filter_col_piece_ne 'E' 'C' (by decide),
    filter_col_piece_eq 'C']
  simp only [List.nil_append, List.append_nil, List.filter_nil]
  have hrows : med_table_rows items.length = 9 :: List.range' 10 items.length := by
    simp [med_table_rows, title_final_row, List.range'_succ]
  have htbl : generate_medical_table_items items =
      med_headers :: items.map med_item_row := rfl
  rw [hrows, htbl, List.zip_cons_cons, List.map_cons]
  congr 1
  rw [List.zip_map_right, List.map_map]
  apply List.map_congr_left
  rintro ⟨r, it⟩ _
  rfl

end Breakdowns

namespace Breakdowns

/-! ## The claims -/

/-- C1 (amended): when the normalized sequence has at least three
records fuzzy-matching `"subtotal"` (budget 2), at positions
`i0 < i1 < i2`, the split returns exactly the three sections
settlement = rows `[0, i0]`, expenses = rows `(i0, i1]`, medical = rows
`(i1, i2]` — each closed by its subtotal row — and their concatenation
reconstructs the *prefix* of the sequence up to and including the third
subtotal row (records after row `i2` appear in no section). -/
theorem c1_split_sections (df : List Record) (i0 i1 i2 : Nat)
    (rest : List Nat) (h : subtotal_idxs df = i0 :: i1 :: i2 :: rest) :
    split_closeout_df df =
      .ok (df.take (i0 + 1), (df.drop (i0 + 1)).take (i1 - i0),
           (df.drop (i1 + 1)).take (i2 - i1)) ∧
    df.take (i0 + 1) ++ ((df.drop (i0 + 1)).take (i1 - i0) ++
      (df.drop (i1 + 1)).take (i2 - i1)) = df.take (i2 + 1) ∧
    i0 < i1 ∧ i1 < i2 ∧ i2 < df.length ∧
    is_fuzzy_match (df.getD i0 ⟨"", none⟩).item "subtotal" 2 = true ∧
    is_fuzzy_match (df.getD i1 ⟨"", none⟩).item "subtotal" 2 = true ∧
    is_fuzzy_match (df.getD i2 ⟨"", none⟩).item "subtotal" 2 = true := by
  have hchain : List.Chain' (· < ·) (subtotal_idxs df) :=
    idxsWhere_chain (fun r : Record => is_fuzzy_match r.item "subtotal" 2) df
  rw [h] at hchain
  have h01 : i0 < i1 := (List.chain'_cons.mp hchain).1
  have h12 : i1 < i2 :=
    (List.chain'_cons.mp (List.chain'_cons.mp hchain).2).1
  have hm0 : i0 ∈ subtotal_idxs df := by rw [h]; simp
  have hm1 : i1 ∈ subtotal_idxs df := by rw [h]; simp
  have hm2 : i2 ∈ subtotal_idxs df := by rw [h]; simp
  have e1 : i1 + 1 - (i0 + 1) = i1 - i0 := by omega
  have e2 : i2 + 1 - (i1 + 1) = i2 - i1 := by omega
  refine ⟨?_, ?_, h01, h12,
    idxsWhere_lt_length _ df i2 hm2,
    idxsWhere_getD _ df i0 ⟨"", none⟩ hm0,
    idxsWhere_getD _ df i1 ⟨"", none⟩ hm1,
    idxsWhere_getD _ df i2 ⟨"", none⟩ hm2⟩
  · rw [split_closeout_df, h]
    show Except.ok (df.take (i0 + 1),
      (df.drop (i0 + 1)).take (i1 + 1 - (i0 + 1)),
      (df.drop (i1 + 1)).take (i2 + 1 - (i1 + 1))) = _
    rw [e1, e2]
  · have t1 : df.take (i0 + 1) ++ (df.drop (i0 + 1)).take (i1 - i0) =
        df.take (i1 + 1) := by
      rw [← List.take_add]
      congr 1
      omega
    have t2 : df.take (i1 + 1) ++ (df.drop (i1 + 1)).take (i2 - i1) =
        df.take (i2 + 1) := by
      rw [← List.take_add]
      congr 1
      omega
    rw [← List.append_assoc, t1, t2]

/-- C2: the layout is the claimed pure function of the medical-item
count: `med_table_final_row = 10 + n`, `bottom_section_first_row =
med_table_final_row + 2` (so a change of `n` moves it by exactly the
same delta), with fixed title block final row 8 and rates block top
row 34. -/
theorem c2_layout_rows : ∀ n : Nat,
    get_med_table_final_row n = 10 + n ∧
    bottom_section_first_row n = get_med_table_final_row n + 2 ∧
    (∀ m : Nat, (bottom_section_first_row m : ℤ) -
      (bottom_section_first_row n : ℤ) = (m : ℤ) - (n : ℤ)) ∧
    title_final_row = 8 ∧ rates_top_row = 34 := by
  intro n
  refine ⟨rfl, rfl, ?_, rfl, rfl⟩
  intro m
  simp only [bottom_section_first_row, get_med_table_final_row]
  push_cast
  ring

/-- C3: for a statement with at least one medical item, the totals row
sits at row `10 + n` and its column-C and column-D `SUM` formulas range
over rows `10 .. 9 + n` — exactly the rows that the medical-table body
writes fill with item data (the `"Billed Amount"` header sits at row 9,
above the range, and the totals row itself below it); the sum range's
references are precisely the item-data cells. -/
theorem c3_totals_row_range (items : List MedItem) (h : 1 ≤ items.length) :
    insert_total_medical_row items.length =
      .ok [(('B', 10 + items.length), CellVal.text "Total"),
           (('C', 10 + items.length),
             .form (.sumRange 'C' 10 (9 + items.length))),
           (('D', 10 + items.length),
             .form (.sumRange 'D' 10 (9 + items.length)))] ∧
    (medAssignments items).filter (fun a => a.1.1 = 'C') =
      (('C', 9), CellVal.text "Billed Amount") ::
        ((List.range' 10 items.length).zip items).map
          (fun p => (('C', p.1), CellVal.num ((p.2.amount.natAbs : ℚ)))) ∧
    refsOf (.sumRange 'C' 10 (9 + items.length)) =
      (List.range' 10 items.length).map fun r => ('C', r) := by
  refine ⟨insert_total_medical_row_ok items.length h,
    medAssignments_filter_c items, ?_⟩
  simp only [refsOf]
  rw [show 9 + items.length + 1 - 10 = items.length from by omega]

/-- C4 (amended): in the left financial column the attorney-fee formula
embeds the factor 0.4 when the litigation flag is set and 1/3 otherwise;
the business-share and net-total cells hold formulas (referencing
earlier column-A cells, the medical-table total cell
`D med_table_final_row`, and rate/bottom-section cells of column B),
never raw numbers; the expenses cell, however, holds the absolute value
of the extracted total-expenses amount as a literal number, not a
formula. -/
theorem c4_formula_chain (s : Option Entry) (e : Int) (lit : Bool)
    (n : Nat) :
    ∃ vals : List CellVal,
      column_a_amount_values s (some (Entry.num e)) lit n = .ok vals ∧
      column_a_amount_rows = [10, 12, 14, 16, 18, 20, 22, 24, 26] ∧
      vals.getD 3 (CellVal.num 0) =
        CellVal.form (.sub (.mul (.ref 'A' 10)
          (.lit (attorney_fees_factor lit)))
          (.ref 'B' (bottom_section_first_row n + 5))) ∧
      attorney_fees_factor lit = (if lit then (2 : ℚ)/5 else 1/3) ∧
      isForm (vals.getD 4 (CellVal.num 0)) = true ∧
      formRefs (vals.getD 4 (CellVal.num 0)) =
        [('A', 16), ('B', rates_top_row + 1)] ∧
      isForm (vals.getD 7 (CellVal.num 0)) = true ∧
      formRefs (vals.getD 7 (CellVal.num 0)) =
        [('A', 18), ('A', 20), ('A', 22)] ∧
      isForm (vals.getD 8 (CellVal.num 0)) = true ∧
      formRefs (vals.getD 8 (CellVal.num 0)) =
        [('A', 10), ('A', 16), ('A', 20), ('A', 22),
         ('D', get_med_table_final_row n),
         ('B', bottom_section_first_row n + 3)] ∧
      vals.getD 6 (CellVal.num 0) = CellVal.num ((e.natAbs : ℚ)) ∧
      isForm (vals.getD 6 (CellVal.num 0)) = false :=
  ⟨_, rfl, rfl, rfl, rfl, rfl, rfl, rfl, rfl, rfl, rfl, rfl, rfl⟩

/-- C5 (amended): the itemized medical list is the medical section with
its *last three* records excluded and every remaining record lacking an
amount dropped; in particular, for a medical section of the practical
shape — a header record carrying no amount, then the itemized records
(each carrying an amount), then the three trailing summary records —
the result is exactly the itemized records, for any number of them. -/
theorem c5_medical_items (df : List Record) (s e : List Record)
    (hdr : Record) (items : List Record) (t1 t2 t3 : Record)
    (hsplit : split_closeout_df df = .ok (s, e, hdr :: items ++ [t1, t2, t3]))
    (hhdr : hdr.amount = none)
    (hitems : ∀ r ∈ items, r.amount.isSome) :
    get_medical_items df = .ok items := by
  have hred : get_medical_items df = .ok
      (((hdr :: items ++ [t1, t2, t3]).take
        ((hdr :: items ++ [t1, t2, t3]).length - 3)).filter
        fun r => r.amount.isSome) := by
    rw [get_medical_items, hsplit]
    rfl
  rw [hred]
  have hl : (hdr :: items ++ [t1, t2, t3]).length - 3 = items.length + 1 := by
    simp only [List.length_cons, List.length_append]
    simp
  rw [hl]
  have htake : List.take (items.length + 1) (hdr :: items ++ [t1, t2, t3]) =
      hdr :: items := by
    rw [show List.take (items.length + 1) (hdr :: items ++ [t1, t2, t3]) =
      hdr :: List.take items.length (items ++ [t1, t2, t3]) from rfl]
    rw [List.take_left]
  simp only [htake]
  rw [List.filter_cons_of_neg (by simp [hhdr])]
  exact congrArg _ (List.filter_eq_self.mpr fun a ha => hitems a ha)

/-- C6: a record label fuzzy-matches a phrase exactly when the phrase
occurs as a contiguous substring of the label within Levenshtein
distance `errors`; concretely, `"total expenses"` with budget 3
matches the canonicalized labels of `"Total Expenses:"`,
`"total-expenses"` and `"ttal expenses"` (the last at distance exactly
1), but not the unrelated label `"Net To Client:"`. -/
theorem c6_fuzzy_matching :
    (∀ (item pat : String) (errors : Nat),
        is_fuzzy_match item pat errors = true ↔
          ∃ t, t <:+: item.toList ∧
            levenshtein Levenshtein.defaultCost pat.toList t ≤ errors) ∧
    is_fuzzy_match (format_items "Total Expenses:") "total expenses" 3 = true ∧
    is_fuzzy_match (format_items "total-expenses") "total expenses" 3 = true ∧
    is_fuzzy_match (format_items "ttal expenses") "total expenses" 3 = true ∧
    levenshtein Levenshtein.defaultCost "total expenses".toList
      "ttal expenses".toList = 1 ∧
    is_fuzzy_match (format_items "Net To Client:") "total expenses" 3 = false :=
  ⟨is_fuzzy_match_iff, by decide, by decide, by decide, by decide, by decide⟩

/-- C7: extraction fails with the spec's `StructureError` when the
source grid lacks the expected columns, and when (the unique-field
lookups all succeeding) fewer than three records fuzzy-match
`"subtotal"`; it fails with `NotFoundError` when any required unique
field (client name, settlement amount, net to client, total expenses,
total medical) has zero fuzzy matches; and a failing extraction never
produces a (partial) `StatementFacts`. -/
theorem c7_extraction_errors :
    (∀ g : RawGrid, ncols g < 10 →
        extract_facts g = .error .structureError) ∧
    (∀ df : List Record,
        matchingItems df "name" 1 ≠ [] →
        matchingAmounts df "amount of settlement" 3 ≠ [] →
        matchingAmounts df "net to client" 3 ≠ [] →
        matchingAmounts df "total expenses" 3 ≠ [] →
        matchingAmounts df "total medical" 3 ≠ [] →
        (subtotal_idxs df).length < 3 →
        parse_closeout_df df = .error .structureError) ∧
    (∀ df : List Record,
        (matchingItems df "name" 1 = [] ∨
         matchingAmounts df "amount of settlement" 3 = [] ∨
         matchingAmounts df "net to client" 3 = [] ∨
         matchingAmounts df "total expenses" 3 = [] ∨
         matchingAmounts df "total medical" 3 = []) →
        parse_closeout_df df = .error .notFoundError) ∧
    (∀ (g : RawGrid) (er : ExtractError) (f : StatementFacts),
        extract_facts g = .error er → extract_facts g ≠ .ok f) := by
  refine ⟨?_, ?_, ?_, ?_⟩
  · intro g hg
    rw [extract_facts, preprocess_closeout_df, if_pos hg]
    rfl
  · intro df h1 h2 h3 h4 h5 hk
    rcases hcl : matchingItems df "name" 1 with _ | ⟨v1, r1⟩
    · exact absurd hcl h1
    rcases hse : matchingAmounts df "amount of settlement" 3 with _ | ⟨v2, r2⟩
    · exact absurd hse h2
    rcases hne : matchingAmounts df "net to client" 3 with _ | ⟨v3, r3⟩
    · exact absurd hne h3
    rcases hte : matchingAmounts df "total expenses" 3 with _ | ⟨v4, r4⟩
    · exact absurd hte h4
    rcases hme : matchingAmounts df "total medical" 3 with _ | ⟨v5, r5⟩
    · exact absurd hme h5
    have hmed : get_medical_items df = .error .structureError := by
      rcases hidx : subtotal_idxs df with _ | ⟨a, _ | ⟨b, _ | ⟨c, r⟩⟩⟩
      · rw [get_medical_items, split_closeout_df, hidx]; rfl
      · rw [get_medical_items, split_closeout_df, hidx]; rfl
      · rw [get_medical_items, split_closeout_df, hidx]; rfl
      · exfalso
        rw [hidx] at hk
        simp only [List.length_cons] at hk
        omega
    rw [parse_closeout_df, get_client_name_cons df v1 r1 hcl,
      get_settlement_amount_cons df v2 r2 hse,
      get_net_to_client_amount_cons df v3 r3 hne,
      get_total_expenses_cons df v4 r4 hte,
      get_total_medical_cons df v5 r5 hme, hmed]
    rfl
  · intro df hdisj
    rcases hcl : matchingItems df "name" 1 with _ | ⟨v1, r1⟩
    · rw [parse_closeout_df, get_client_name_nil df hcl]
      rfl
    rcases hse : matchingAmounts df "amount of settlement" 3 with _ | ⟨v2, r2⟩
    · rw [parse_closeout_df, get_client_name_cons df v1 r1 hcl,
        get_settlement_amount_nil df hse]
      rfl
    rcases hne : matchingAmounts df "net to client" 3 with _ | ⟨v3, r3⟩
    · rw [parse_closeout_df, get_client_name_cons df v1 r1 hcl,
        get_settlement_amount_cons df v2 r2 hse,
        get_net_to_client_amount_nil df hne]
      rfl
    rcases hte : matchingAmounts df "total expenses" 3 with _ | ⟨v4, r4⟩
    · rw [parse_closeout_df, get_client_name_cons df v1 r1 hcl,
        get_settlement_amount_cons df v2 r2 hse,
        get_net_to_client_amount_cons df v3 r3 hne,
        get_total_expenses_nil df hte]
      rfl
    rcases hme : matchingAmounts df "total medical" 3 with _ | ⟨v5, r5⟩
    · rw [parse_closeout_df, get_client_name_cons df v1 r1 hcl,
        get_settlement_amount_cons df v2 r2 hse,
        get_net_to_client_amount_cons df v3 r3 hne,
        get_total_expenses_cons df v4 r4 hte,
        get_total_medical_nil df hme]
      rfl
    rcases hdisj with hx | hx | hx | hx | hx
    · rw [hcl] at hx; cases hx
    · rw [hse] at hx; cases hx
    · rw [hne] at hx; cases hx
    · rw [hte] at hx; cases hx
    · rw [hme] at hx; cases hx
  · intro g er f he hok
    rw [he] at hok
    cases hok

/-- C8 (amended): the extracted `total_expenses_amount` and
`total_medical_amount` are the amounts of the first matching source
rows with their sign preserved (a source `-5000` is stored as `-5000`);
the absolute value is applied at generation time only: the generated
expenses cell holds `|total_expenses|` and every billed amount in the
generated medical table is the item's absolute amount, a non-negative
number. -/
theorem c8_signed_extraction (df : List Record) (f : StatementFacts)
    (h : parse_closeout_df df = .ok f) :
    (matchingAmounts df "total expenses" 3).head? =
      some f.total_expenses_amount ∧
    (matchingAmounts df "total medical" 3).head? =
      some f.total_medical_amount ∧
    (∀ e : Int, f.total_expenses_amount = some (.num e) →
        absEntry f.total_expenses_amount =
          .ok (CellVal.num ((e.natAbs : ℚ)))) ∧
    (∀ it : MedItem,
        (med_item_row it).getD 1 (CellVal.text "") =
          CellVal.num ((it.amount.natAbs : ℚ)) ∧
        (0 : ℚ) ≤ ((it.amount.natAbs : ℚ))) := by
  obtain ⟨-, -, -, ht, hm, -⟩ := parse_ok_fields df f h
  refine ⟨?_, ?_, ?_, ?_⟩
  · rcases hte : matchingAmounts df "total expenses" 3 with _ | ⟨v, rest⟩
    · rw [get_total_expenses_nil df hte] at ht
      cases ht
    · rw [get_total_expenses_cons df v rest hte] at ht
      injection ht with h2
      rw [h2]
      rfl
  · rcases hme : matchingAmounts df "total medical" 3 with _ | ⟨v, rest⟩
    · rw [get_total_medical_nil df hme] at hm
      cases hm
    · rw [get_total_medical_cons df v rest hme] at hm
      injection hm with h2
      rw [h2]
      rfl
  · rintro e he
    rw [he]
    rfl
  · intro it
    exact ⟨rfl, Nat.cast_nonneg _⟩

/-- C9: ambiguous matches are not errors — every unique-field lookup
returns the value of the first matching record in document order. -/
theorem c9_first_match_policy (df : List Record) :
    (∀ (r : Record) (rest : List Record),
        df.filter (fun x => is_fuzzy_match x.item "amount of settlement" 3)
          = r :: rest →
        get_settlement_amount df = .ok r.amount) ∧
    (∀ (r : Record) (rest : List Record),
        df.filter (fun x => is_fuzzy_match x.item "net to client" 3)
          = r :: rest →
        get_net_to_client_amount df = .ok r.amount) ∧
    (∀ (r : Record) (rest : List Record),
        df.filter (fun x => is_fuzzy_match x.item "total expenses" 3)
          = r :: rest →
        get_total_expenses df = .ok r.amount) ∧
    (∀ (r : Record) (rest : List Record),
        df.filter (fun x => is_fuzzy_match x.item "total medical" 3)
          = r :: rest →
        get_total_medical df = .ok r.amount) ∧
    (∀ (r : Record) (rest : List Record),
        df.filter (fun x => is_fuzzy_match x.item "name" 1) = r :: rest →
        get_client_name df =
          .ok (String.mk (pyStrip (removeOcc "name".toList r.item.toList)))) := by
  refine ⟨?_, ?_, ?_, ?_, ?_⟩ <;> intro r rest hf
  · exact get_settlement_amount_cons df r.amount (rest.map (·.amount))
      (by rw [matchingAmounts, hf]; rfl)
  · exact get_net_to_client_amount_cons df r.amount (rest.map (·.amount))
      (by rw [matchingAmounts, hf]; rfl)
  · exact get_total_expenses_cons df r.amount (rest.map (·.amount))
      (by rw [matchingAmounts, hf]; rfl)
  · exact get_total_medical_cons df r.amount (rest.map (·.amount))
      (by rw [matchingAmounts, hf]; rfl)
  · exact get_client_name_cons df r.item (rest.map (·.item))
      (by rw [matchingItems, hf]; rfl)

/-- C10: building the breakdown for a statement whose extracted medical
items list is empty fails with the `IndexError` of `med_table_rows[1]`
(for `n_items = 0` the row list holds only the header row 9) before any
sheet is produced, while with at least one medical item — all other
lookups succeeding with numeric amounts — construction completes. -/
theorem c10_empty_medical_items (df : List Record) (is_lit : Bool)
    (meds : List Record) (hm : get_medical_items df = .ok meds)
    (hnum : ∀ r ∈ meds, ∃ k : Int, r.amount = some (.num k))
    (hc : ∃ name : String, get_client_name df = .ok name)
    (hs : ∃ v, get_settlement_amount df = .ok v)
    (he : ∃ k : Int, get_total_expenses df = .ok (some (.num k))) :
    (meds = [] → buildSheet df is_lit = .error .indexError) ∧
    (meds ≠ [] → ∃ sheet, buildSheet df is_lit = .ok sheet) ∧
    med_table_rows 0 = [title_final_row + 1] := by
  obtain ⟨name, hc⟩ := hc
  obtain ⟨v, hs⟩ := hs
  obtain ⟨k, he⟩ := he
  obtain ⟨items, hitems, hlen⟩ := mapExcept_toMedItem_ok meds hnum
  have hred : buildSheet df is_lit = (do
      let colA ← column_a_amounts v (some (.num k)) is_lit meds.length
      let its ← mapExcept toMedItem meds
      let totals ← insert_total_medical_row its.length
      .ok ([(('B', 5), CellVal.text "STATEMENT OF BREAKDOWN"),
            (('B', 6), CellVal.text name)] ++
           column_a_headers ++ colA ++
           medAssignments its ++ totals ++
           column_b_headers its.length ++ column_b_amounts its.length ++
           payouts_assignments its.length ++ rates_assignments)) := by
    rw [buildSheet, hm, hc, hs, he]
    rfl
  refine ⟨?_, ?_, rfl⟩
  · rintro rfl
    have hi0 : items = [] := List.length_eq_zero.mp (by rw [hlen]; rfl)
    subst hi0
    rw [hred, hitems]
    rfl
  · intro hne
    have h1 : 1 ≤ items.length := by
      rw [hlen]
      exact List.length_pos.mpr hne
    obtain ⟨colA, hca⟩ : ∃ cA,
        column_a_amounts v (some (.num k)) is_lit meds.length = .ok cA :=
      ⟨_, rfl⟩
    rw [hred]
    simp only [hca, hitems, ok_bind,
      insert_total_medical_row_ok items.length h1]
    exact ⟨_, rfl⟩

/-! ## Ground fuzzy-matching facts about the concrete labels -/

@[simp]
theorem fz_sub_namejd : is_fuzzy_match "name jd" "subtotal" 2 = false := by decide

@[simp]
theorem fz_sub_amtset : is_fuzzy_match "amount of settlement" "subtotal" 2 = false := by decide

@[simp]
theorem fz_sub_subt : is_fuzzy_match "subtotal" "subtotal" 2 = true := by decide

@[simp]
theorem fz_sub_texp : is_fuzzy_match "total expenses" "subtotal" 2 = false := by decide

@[simp]
theorem fz_sub_prov : is_fuzzy_match "prov" "subtotal" 2 = false := by decide

@[simp]
theorem fz_sub_dra : is_fuzzy_match "dr a" "subtotal" 2 = false := by decide

@[simp]
theorem fz_sub_tmed : is_fuzzy_match "total medical" "subtotal" 2 = false := by decide

@[simp]
theorem fz_sub_reduc : is_fuzzy_match "reduc" "subtotal" 2 = false := by decide

@[simp]
theorem fz_sub_netc : is_fuzzy_match "net to client" "subtotal" 2 = false := by decide

@[simp]
theorem fz_sub_intro : is_fuzzy_match "intro" "subtotal" 2 = false := by decide

@[simp]
theorem fz_sub_fee : is_fuzzy_match "fee" "subtotal" 2 = false := by decide

@[simp]
theorem fz_sub_extra : is_fuzzy_match "extra" "subtotal" 2 = false := by decide

@[simp]
theorem fz_sub_aa : is_fuzzy_match "a" "subtotal" 2 = false := by decide

@[simp]
theorem fz_sub_xray : is_fuzzy_match "xray" "subtotal" 2 = false := by decide

@[simp]
theorem fz_nm_namejd : is_fuzzy_match "name jd" "name" 1 = true := by decide

@[simp]
theorem fz_nm_amtset : is_fuzzy_match "amount of settlement" "name" 1 = false := by decide

@[simp]
theorem fz_nm_subt : is_fuzzy_match "subtotal" "name" 1 = false := by decide

@[simp]
theorem fz_nm_texp : is_fuzzy_match "total expenses" "name" 1 = false := by decide

@[simp]
theorem fz_nm_prov : is_fuzzy_match "prov" "name" 1 = false := by decide

@[simp]
theorem fz_nm_dra : is_fuzzy_match "dr a" "name" 1 = false := by decide

@[simp]
theorem fz_nm_tmed : is_fuzzy_match "total medical" "name" 1 = false := by decide

@[simp]
theorem fz_nm_reduc : is_fuzzy_match "reduc" "name" 1 = false := by decide

@[simp]
theorem fz_nm_netc : is_fuzzy_match "net to client" "name" 1 = false := by decide

@[simp]
theorem fz_nm_namea : is_fuzzy_match "name a" "name" 1 = true := by decide

@[simp]
theorem fz_nm_nameb : is_fuzzy_match "name b" "name" 1 = true := by decide

@[simp]
theorem fz_amt_namejd : is_fuzzy_match "name jd" "amount of settlement" 3 = false := by decide

@[simp]
theorem fz_amt_amtset : is_fuzzy_match "amount of settlement" "amount of settlement" 3 = true := by decide

@[simp]
theorem fz_amt_subt : is_fuzzy_match "subtotal" "amount of settlement" 3 = false := by decide

@[simp]
theorem fz_amt_texp : is_fuzzy_match "total expenses" "amount of settlement" 3 = false := by decide

@[simp]
theorem fz_amt_prov : is_fuzzy_match "prov" "amount of settlement" 3 = false := by decide

@[simp]
theorem fz_amt_dra : is_fuzzy_match "dr a" "amount of settlement" 3 = false := by decide

@[simp]
theorem fz_amt_tmed : is_fuzzy_match "total medical" "amount of settlement" 3 = false := by decide

@[simp]
theorem fz_amt_reduc : is_fuzzy_match "reduc" "amount of settlement" 3 = false := by decide

@[simp]
theorem fz_amt_netc : is_fuzzy_match "net to client" "amount of settlement" 3 = false := by decide

@[simp]
theorem fz_amt_namea : is_fuzzy_match "name a" "amount of settlement" 3 = false := by decide

@[simp]
theorem fz_amt_nameb : is_fuzzy_match "name b" "amount of settlement" 3 = false := by decide

@[simp]
theorem fz_net_namejd : is_fuzzy_match "name jd" "net to client" 3 = false := by decide

@[simp]
theorem fz_net_amtset : is_fuzzy_match "amount of settlement" "net to client" 3 = false := by decide

@[simp]
theorem fz_net_subt : is_fuzzy_match "subtotal" "net to client" 3 = false := by decide

@[simp]
theorem fz_net_texp : is_fuzzy_match "total expenses" "net to client" 3 = false := by decide

@[simp]
theorem fz_net_prov : is_fuzzy_match "prov" "net to client" 3 = false := by decide

@[simp]
theorem fz_net_dra : is_fuzzy_match "dr a" "net to client" 3 = false := by decide

@[simp]
theorem fz_net_tmed : is_fuzzy_match "total medical" "net to client" 3 = false := by decide

@[simp]
theorem fz_net_reduc : is_fuzzy_match "reduc" "net to client" 3 = false := by decide

@[simp]
theorem fz_net_netc : is_fuzzy_match "net to client" "net to client" 3 = true := by decide

@[simp]
theorem fz_net_namea : is_fuzzy_match "name a" "net to client" 3 = false := by decide

@[simp]
theorem fz_net_nameb : is_fuzzy_match "name b" "net to client" 3 = false := by decide

@[simp]
theorem fz_exp_namejd : is_fuzzy_match "name jd" "total expenses" 3 = false := by decide

@[simp]
theorem fz_exp_amtset : is_fuzzy_match "amount of settlement" "total expenses" 3 = false := by decide

@[simp]
theorem fz_exp_subt : is_fuzzy_match "subtotal" "total expenses" 3 = false := by decide

@[simp]
theorem fz_exp_texp : is_fuzzy_match "total expenses" "total expenses" 3 = true := by decide

@[simp]
theorem fz_exp_prov : is_fuzzy_match "prov" "total expenses" 3 = false := by decide

@[simp]
theorem fz_exp_dra : is_fuzzy_match "dr a" "total expenses" 3 = false := by decide

@[simp]
theorem fz_exp_tmed : is_fuzzy_match "total medical" "total expenses" 3 = false := by decide

@[simp]
theorem fz_exp_reduc : is_fuzzy_match "reduc" "total expenses" 3 = false := by decide

@[simp]
theorem fz_exp_netc : is_fuzzy_match "net to client" "total expenses" 3 = false := by decide

@[simp]
theorem fz_exp_namea : is_fuzzy_match "name a" "total expenses" 3 = false := by decide

@[simp]
theorem fz_exp_nameb : is_fuzzy_match "name b" "total expenses" 3 = false := by decide

@[simp]
theorem fz_med_namejd : is_fuzzy_match "name jd" "total medical" 3 = false := by decide

@[simp]
theorem fz_med_amtset : is_fuzzy_match "amount of settlement" "total medical" 3 = false := by decide

@[simp]
theorem fz_med_subt : is_fuzzy_match "subtotal" "total medical" 3 = false := by decide

@[simp]
theorem fz_med_texp : is_fuzzy_match "total expenses" "total medical" 3 = false := by decide

@[simp]
theorem fz_med_prov : is_fuzzy_match "prov" "total medical" 3 = false := by decide

@[simp]
theorem fz_med_dra : is_fuzzy_match "dr a" "total medical" 3 = false := by decide

@[simp]
theorem fz_med_tmed : is_fuzzy_match "total medical" "total medical" 3 = true := by decide

@[simp]
theorem fz_med_reduc : is_fuzzy_match "reduc" "total medical" 3 = false := by decide

@[simp]
theorem fz_med_netc : is_fuzzy_match "net to client" "total medical" 3 = false := by decide

@[simp]
theorem fz_med_namea : is_fuzzy_match "name a" "total medical" 3 = false := by decide

@[simp]
theorem fz_med_nameb : is_fuzzy_match "name b" "total medical" 3 = false := by decide

/-! ## Evaluations of the pipeline on the concrete inputs -/

theorem df1_subidx : subtotal_idxs df1 = [1, 3, 5] := by
  simp [subtotal_idxs, idxsWhere, df1]

theorem df5_subidx : subtotal_idxs df5 = [1, 3, 9] := by
  simp [subtotal_idxs, idxsWhere, df5]

theorem df8_subidx : subtotal_idxs df8 = [2, 4, 9] := by
  simp [subtotal_idxs, idxsWhere, df8]

theorem df0_subidx : subtotal_idxs df0 = [2, 4, 8] := by
  simp [subtotal_idxs, idxsWhere, df0]

theorem df7b_subidx : subtotal_idxs df7b = [5, 6] := by
  simp [subtotal_idxs, idxsWhere, df7b]

theorem df8_split : split_closeout_df df8 =
    .ok (df8.take 3, (df8.drop 3).take 2,
      ⟨"prov", none⟩ :: ([⟨"dr a", some (Entry.num 3000)⟩] ++
        [⟨"total medical", some (Entry.num 3000)⟩,
         ⟨"reduc", some (Entry.num 0)⟩,
         ⟨"subtotal", some (Entry.num 3000)⟩])) := by
  rw [split_closeout_df, df8_subidx]
  all_goals decide

theorem df0_split : split_closeout_df df0 =
    .ok (df0.take 3, (df0.drop 3).take 2, (df0.drop 5).take 4) := by
  rw [split_closeout_df, df0_subidx]

theorem df8_meds : get_medical_items df8 =
    .ok [⟨"dr a", some (Entry.num 3000)⟩] := by
  rw [get_medical_items, df8_split]
  decide

theorem df0_meds : get_medical_items df0 = .ok [] := by
  rw [get_medical_items, df0_split]
  decide

theorem df8_nm : matchingItems df8 "name" 1 = ["name jd"] := by
  simp [matchingItems, df8]

theorem df8_amt : matchingAmounts df8 "amount of settlement" 3 =
    [some (Entry.num 100000)] := by
  simp [matchingAmounts, df8]

theorem df8_net : matchingAmounts df8 "net to client" 3 =
    [some (Entry.num 70000)] := by
  simp [matchingAmounts, df8]

theorem df8_exp : matchingAmounts df8 "total expenses" 3 =
    [some (Entry.num (-5000))] := by
  simp [matchingAmounts, df8]

theorem df8_med : matchingAmounts df8 "total medical" 3 =
    [some (Entry.num 3000)] := by
  simp [matchingAmounts, df8]

theorem df8_client : get_client_name df8 = .ok "jd" := by
  rw [get_client_name, df8_nm]
  decide

theorem df8_settlement : get_settlement_amount df8 =
    .ok (some (Entry.num 100000)) := by
  rw [get_settlement_amount, df8_amt]

theorem df8_netc : get_net_to_client_amount df8 =
    .ok (some (Entry.num 70000)) := by
  rw [get_net_to_client_amount, df8_net]

theorem df8_texp : get_total_expenses df8 =
    .ok (some (Entry.num (-5000))) := by
  rw [get_total_expenses, df8_exp]

theorem df8_tmed : get_total_medical df8 =
    .ok (some (Entry.num 3000)) := by
  rw [get_total_medical, df8_med]

theorem df8_parse : parse_closeout_df df8 =
    .ok ⟨"jd", some (Entry.num 100000), some (Entry.num 70000),
         some (Entry.num (-5000)), some (Entry.num 3000),
         [⟨"dr a", some (Entry.num 3000)⟩]⟩ := by
  rw [parse_closeout_df, df8_client, df8_settlement, df8_netc, df8_texp,
    df8_tmed, df8_meds]
  rfl

theorem df0_nm : matchingItems df0 "name" 1 = ["name jd"] := by
  simp [matchingItems, df0]

theorem df0_amt : matchingAmounts df0 "amount of settlement" 3 =
    [some (Entry.num 90000)] := by
  simp [matchingAmounts, df0]

theorem df0_exp : matchingAmounts df0 "total expenses" 3 =
    [some (Entry.num 40)] := by
  simp [matchingAmounts, df0]

theorem df0_client : get_client_name df0 = .ok "jd" := by
  rw [get_client_name, df0_nm]
  decide

theorem df0_settlement : get_settlement_amount df0 =
    .ok (some (Entry.num 90000)) := by
  rw [get_settlement_amount, df0_amt]

theorem df0_texp : get_total_expenses df0 = .ok (some (Entry.num 40)) := by
  rw [get_total_expenses, df0_exp]

theorem df7b_nm : matchingItems df7b "name" 1 = ["name jd"] := by
  simp [matchingItems, df7b]

theorem df7b_amt : matchingAmounts df7b "amount of settlement" 3 =
    [some (Entry.num 1)] := by
  simp [matchingAmounts, df7b]

theorem df7b_net : matchingAmounts df7b "net to client" 3 =
    [some (Entry.num 2)] := by
  simp [matchingAmounts, df7b]

theorem df7b_exp : matchingAmounts df7b "total expenses" 3 =
    [some (Entry.num 3)] := by
  simp [matchingAmounts, df7b]

theorem df7b_med : matchingAmounts df7b "total medical" 3 =
    [some (Entry.num 4)] := by
  simp [matchingAmounts, df7b]

theorem df7c_net : matchingAmounts df7c "net to client" 3 = [] := by
  simp [matchingAmounts, df7c]

theorem df9_famt : df9.filter
    (fun x => is_fuzzy_match x.item "amount of settlement" 3) =
    [⟨"amount of settlement", some (Entry.num 111)⟩,
     ⟨"amount of settlement", some (Entry.num 222)⟩] := by
  simp [df9]

theorem df9_fnet : df9.filter
    (fun x => is_fuzzy_match x.item "net to client" 3) =
    [⟨"net to client", some (Entry.num 11)⟩,
     ⟨"net to client", some (Entry.num 22)⟩] := by
  simp [df9]

theorem df9_fexp : df9.filter
    (fun x => is_fuzzy_match x.item "total expenses" 3) =
    [⟨"total expenses", some (Entry.num 31)⟩,
     ⟨"total expenses", some (Entry.num 32)⟩] := by
  simp [df9]

theorem df9_fmed : df9.filter
    (fun x => is_fuzzy_match x.item "total medical" 3) =
    [⟨"total medical", some (Entry.num 41)⟩,
     ⟨"total medical", some (Entry.num 42)⟩] := by
  simp [df9]

theorem df9_fnm : df9.filter (fun x => is_fuzzy_match x.item "name" 1) =
    [⟨"name a", none⟩, ⟨"name b", none⟩] := by
  simp [df9]

/-! ## Witnesses and counterexamples -/

/-- C1 counterexample: on a valid sequence (three fuzzy-subtotal rows)
with one record after the third subtotal, the three sections'
concatenation does not reconstruct the full sequence. -/
theorem c1_counterexample :
    split_closeout_df df1 =
      .ok (df1.take 2, (df1.drop 2).take 2, (df1.drop 4).take 2) ∧
    df1.take 2 ++ ((df1.drop 2).take 2 ++ (df1.drop 4).take 2) ≠ df1 := by
  constructor
  · rw [split_closeout_df, df1_subidx]
  · decide

/-- Witness for C1's amended theorem at `df1`. -/
theorem c1_witness :
    split_closeout_df df1 =
      .ok (df1.take 2, (df1.drop 2).take 2, (df1.drop 4).take 2) ∧
    df1.take 2 ++ ((df1.drop 2).take 2 ++ (df1.drop 4).take 2) =
      df1.take 6 ∧
    1 < 3 ∧ 3 < 5 ∧ 5 < df1.length ∧
    is_fuzzy_match (df1.getD 1 ⟨"", none⟩).item "subtotal" 2 = true ∧
    is_fuzzy_match (df1.getD 3 ⟨"", none⟩).item "subtotal" 2 = true ∧
    is_fuzzy_match (df1.getD 5 ⟨"", none⟩).item "subtotal" 2 = true :=
  c1_split_sections df1 1 3 5 [] df1_subidx

/-- Witness for C3's theorem at the one-item medical list. -/
theorem c3_witness :
    1 ≤ c3items.length ∧
    (insert_total_medical_row c3items.length =
      .ok [(('B', 10 + c3items.length), CellVal.text "Total"),
           (('C', 10 + c3items.length),
             .form (.sumRange 'C' 10 (9 + c3items.length))),
           (('D', 10 + c3items.length),
             .form (.sumRange 'D' 10 (9 + c3items.length)))] ∧
    (medAssignments c3items).filter (fun a => a.1.1 = 'C') =
      (('C', 9), CellVal.text "Billed Amount") ::
        ((List.range' 10 c3items.length).zip c3items).map
          (fun p => (('C', p.1), CellVal.num ((p.2.amount.natAbs : ℚ)))) ∧
    refsOf (.sumRange 'C' 10 (9 + c3items.length)) =
      (List.range' 10 c3items.length).map fun r => ('C', r)) :=
  ⟨by decide, c3_totals_row_range c3items (by decide)⟩

/-- C4 counterexample: with settlement 100000, source total expenses
-5000, no litigation and one medical item, the Expenses cell — index 6
of the amount list, written to row 22 of column A — holds the literal
number 5000, not a formula, refuting "every downstream cell (business
share, expenses, net totals) holds a formula ... never a raw computed
number". -/
theorem c4_counterexample :
    (column_a_amount_values (some (Entry.num 100000))
        (some (Entry.num (-5000))) false 1).map
      (fun vs => vs.getD 6 (CellVal.num 0)) = .ok (CellVal.num 5000) ∧
    isForm (CellVal.num 5000) = false ∧
    column_a_amount_rows.getD 6 0 = 22 := by
  refine ⟨rfl, rfl, by decide⟩

/-- C5 counterexample: on `df5`'s medical section the code's itemized
list (slice off the last three rows, then drop any row missing a field)
differs from the spec's description (drop the header and the last three
rows, then drop fully-empty rows): the amount-less `"xray"` row is kept
by the spec's description but dropped by the code. -/
theorem c5_counterexample :
    split_closeout_df df5 =
      .ok (df5.take 2, (df5.drop 2).take 2, (df5.drop 4).take 6) ∧
    get_medical_items df5 = .ok [⟨"dr a", some (Entry.num 100)⟩] ∧
    medical_items_spec ((df5.drop 4).take 6) =
      [⟨"xray", none⟩, ⟨"dr a", some (Entry.num 100)⟩] ∧
    ([⟨"xray", none⟩, ⟨"dr a", some (Entry.num 100)⟩] : List Record) ≠
      [⟨"dr a", some (Entry.num 100)⟩] := by
  have hsp : split_closeout_df df5 =
      .ok (df5.take 2, (df5.drop 2).take 2, (df5.drop 4).take 6) := by
    rw [split_closeout_df, df5_subidx]
  refine ⟨hsp, ?_, by decide, by decide⟩
  rw [get_medical_items, hsp]
  decide

/-- Witness for C5's amended theorem at `df8`'s medical section. -/
theorem c5_witness :
    (⟨"prov", none⟩ : Record).amount = none ∧
    (∀ r ∈ ([⟨"dr a", some (Entry.num 3000)⟩] : List Record),
      r.amount.isSome) ∧
    get_medical_items df8 = .ok [⟨"dr a", some (Entry.num 3000)⟩] :=
  ⟨rfl, by decide,
    c5_medical_items df8 _ _ _ _ _ _ _ df8_split rfl (by decide)⟩

/-- Witness for C7's theorem: a one-column grid, a statement with only
two subtotal rows, and a statement with no net-to-client row. -/
theorem c7_witness :
    extract_facts gBad = .error .structureError ∧
    parse_closeout_df df7b = .error .structureError ∧
    parse_closeout_df df7c = .error .notFoundError ∧
    extract_facts gBad ≠ .ok ⟨"", none, none, none, none, []⟩ := by
  have w1 := c7_extraction_errors.1 gBad (by decide)
  refine ⟨w1, ?_, ?_,
    c7_extraction_errors.2.2.2 gBad .structureError _ w1⟩
  · exact c7_extraction_errors.2.1 df7b
      (by rw [df7b_nm]; decide) (by rw [df7b_amt]; decide)
      (by rw [df7b_net]; decide) (by rw [df7b_exp]; decide)
      (by rw [df7b_med]; decide) (by rw [df7b_subidx]; decide)
  · exact c7_extraction_errors.2.2.1 df7c (Or.inr (Or.inr (Or.inl df7c_net)))

/-- C8 counterexample: parsing `df8` (source total expenses -5000)
stores `-5000` in `total_expenses_amount`, not its absolute value. -/
theorem c8_counterexample :
    (parse_closeout_df df8).map (fun f => f.total_expenses_amount) =
      .ok (some (Entry.num (-5000))) ∧
    some (Entry.num (-5000)) ≠ some (Entry.num |(-5000 : Int)|) := by
  refine ⟨?_, by decide⟩
  rw [df8_parse]
  rfl

/-- Witness for C8's amended theorem at `df8`. -/
theorem c8_witness :
    parse_closeout_df df8 =
      .ok ⟨"jd", some (Entry.num 100000), some (Entry.num 70000),
           some (Entry.num (-5000)), some (Entry.num 3000),
           [⟨"dr a", some (Entry.num 3000)⟩]⟩ ∧
    ((matchingAmounts df8 "total expenses" 3).head? =
      some (some (Entry.num (-5000))) ∧
    (matchingAmounts df8 "total medical" 3).head? =
      some (some (Entry.num 3000)) ∧
    (∀ e : Int, (some (Entry.num (-5000)) : Option Entry) =
        some (.num e) →
      absEntry (some (Entry.num (-5000))) =
        .ok (CellVal.num ((e.natAbs : ℚ)))) ∧
    (∀ it : MedItem,
      (med_item_row it).getD 1 (CellVal.text "") =
        CellVal.num ((it.amount.natAbs : ℚ)) ∧
      (0 : ℚ) ≤ ((it.amount.natAbs : ℚ)))) :=
  ⟨df8_parse, c8_signed_extraction df8 _ df8_parse⟩

/-- Witness for C9's theorem at `df9`, where every unique field matches
two rows: each lookup silently returns the first match. -/
theorem c9_witness :
    get_settlement_amount df9 = .ok (some (Entry.num 111)) ∧
    get_net_to_client_amount df9 = .ok (some (Entry.num 11)) ∧
    get_total_expenses df9 = .ok (some (Entry.num 31)) ∧
    get_total_medical df9 = .ok (some (Entry.num 41)) ∧
    get_client_name df9 = .ok "a" ∧
    2 ≤ (df9.filter
      (fun x => is_fuzzy_match x.item "amount of settlement" 3)).length := by
  have h := c9_first_match_policy df9
  exact ⟨h.1 _ _ df9_famt, h.2.1 _ _ df9_fnet, h.2.2.1 _ _ df9_fexp,
    h.2.2.2.1 _ _ df9_fmed,
    (h.2.2.2.2 _ _ df9_fnm).trans (by decide),
    by rw [df9_famt]; decide⟩

/-- Witness for C10's theorem: building the breakdown for `df0` (zero
extracted medical items) fails with the index error; for `df8` (one
item) it completes. -/
theorem c10_witness :
    buildSheet df0 false = .error .indexError ∧
    (∃ sheet, buildSheet df8 false = .ok sheet) := by
  constructor
  · exact (c10_empty_medical_items df0 false [] df0_meds
      (by intro r hr; exact absurd hr (List.not_mem_nil r))
      ⟨"jd", df0_client⟩ ⟨some (Entry.num 90000), df0_settlement⟩
      ⟨40, df0_texp⟩).1 rfl
  · exact (c10_empty_medical_items df8 false
      [⟨"dr a", some (Entry.num 3000)⟩] df8_meds
      (by rintro r hr; rw [List.mem_singleton] at hr; subst hr;
          exact ⟨3000, rfl⟩)
      ⟨"jd", df8_client⟩ ⟨some (Entry.num 100000), df8_settlement⟩
      ⟨-5000, df8_texp⟩).2.1 (by decide)

end Breakdowns
